import Mathlib

/-!
# rhoas/provider.go

A shallow embedding of `src/rhoas/provider.go`: the provider schema returned by
`Provider()` and the configure callback `providerConfigure`.

The callback talks to the outside only through a handful of calls
(`cfg.Location`, `os.Stat`, `cfg.Save`, the connection builder's `Build`, and
`RefreshTokens`).  Their results are taken from a `World` record, and every
call the function performs is appended to a call log, so that statements about
what is called, in which order and with which arguments are statements about
that log.  The config file is touched through these calls only; what `Save`,
`Build` and `RefreshTokens` do to it is given by an `Effects` record, and the
file after a run is the file before it with the logged calls applied in order.
-/

namespace rhoas

/-! ## Library types used by the file -/

/-- A Go `error` value: its `Error()` message, and whether `os.IsNotExist`
holds of it. -/
structure GoError where
  msg : String
  notExist : Bool
deriving DecidableEq, Repr

/-- The Go `error` interface: `none` is `nil`. -/
abbrev error := Option GoError

/-- The predicate `os.IsNotExist(err)`; false on a nil error. -/
def IsNotExist (err : error) : Bool :=
  match err with
  | none => false
  | some e => e.notExist

/-- The type `diag.Severity`. -/
inductive Severity where
  | Error
  | Warning
deriving DecidableEq, Repr

/-- The type `diag.Diagnostic` (the fields this file sets; `Detail` stays empty). -/
structure Diagnostic where
  Severity : Severity
  Summary : String
  Detail : String
deriving DecidableEq, Repr

/-- The type `diag.Diagnostics`. -/
abbrev Diagnostics := List Diagnostic

/-- The function `diag.FromErr`: nil for a nil error, otherwise a single Error diagnostic
whose summary is the error message. -/
def FromErr (err : error) : Diagnostics :=
  match err with
  | none => []
  | some e => [{ Severity := Severity.Error, Summary := e.msg, Detail := "" }]

/-- The type `schema.ValueType` (only the member used here). -/
inductive ValueType where
  | TypeString
deriving DecidableEq, Repr

/-- The process environment as read by `os.Getenv`: an unset variable reads as
the empty string. -/
abbrev Environ := String → String

/-- The type `schema.SchemaDefaultFunc`: run against the environment, it returns the
default value, `none` being Go's `nil`. -/
abbrev SchemaDefaultFunc := Environ → Option String

/-- The function `schema.EnvDefaultFunc(k, dv)`: the value of environment variable `k` when
it is not empty, and `dv` otherwise. -/
def EnvDefaultFunc (k : String) (dv : Option String) : SchemaDefaultFunc :=
  fun env => if env k ≠ "" then some (env k) else dv

/-- The type `schema.Schema` (the fields this file sets; `Type_` is the Go field `Type`). -/
structure Schema where
  Type_ : ValueType
  Optional : Bool
  DefaultFunc : SchemaDefaultFunc
  Description : String

/-- The resource and data-source constructors of the sibling packages that
`Provider()` calls; their bodies are outside this file. -/
inductive ResourceCtor where
  | kafkas_ResourceKafka
  | serviceaccounts_ResourceServiceAccount
  | cloudproviders_DataSourceCloudProviders
  | cloudproviders_DataSourceCloudProviderRegions
  | kafkas_DataSourceKafkas
  | serviceaccounts_DataSourceServiceAccounts
deriving DecidableEq, Repr

/-! ## Constants (lines 17-22) -/

def DefaultAuthURL : String := "https://sso.redhat.com/auth/realms/redhat-external"
def DefaultMasAuthURL : String := "https://identity.api.openshift.com/auth/realms/rhoas-client-prod"
def DefaultAPIURL : String := "https://api.openshift.com"
def DefaultClientID : String := "cloud-services"

/-! ## The world `providerConfigure` runs in -/

/-- A `context.Context`, identified by a tag. -/
structure Context where
  id : Nat
deriving DecidableEq, Repr

/-- A `schema.ResourceData` as read by `d.Get(key).(string)`. -/
abbrev ResourceData := String → String

/-- Modelled from the spec: the declaration of `config.Config` (package
`rhoas/cli/config`) is not part of the sources; it is a plain record of stored
settings, and its zero value `config.Config{}` stores none. -/
structure Config where
  fields : List (String × String)
deriving DecidableEq, Repr

/-- The zero value `config.Config{}`. -/
def Config.empty : Config := { fields := [] }

/-- The handle returned by `config.NewFile()`. -/
inductive IConfig where
  | file
deriving DecidableEq, Repr

/-- The constructor `config.NewFile()`. -/
def NewFile : IConfig := IConfig.file

/-- The type `connection.Config`. -/
structure ConnectionConfig where
  RequireAuth : Bool
  RequireMASAuth : Bool
deriving DecidableEq, Repr

/-- One call of a setter of the connection builder, with its argument. -/
inductive BuilderCall where
  | WithConnectionConfig (c : ConnectionConfig)
  | WithConfig (cfg : IConfig)
  | WithAuthURL (s : String)
  | WithMASAuthURL (s : String)
  | WithRefreshToken (s : String)
  | WithClientID (s : String)
  | WithURL (s : String)
deriving DecidableEq, Repr

/-- A connection builder: the setter calls made on it so far, oldest first. -/
abbrev Builder := List BuilderCall

/-- The constructor `connection.NewBuilder()`. -/
def NewBuilder : Builder := []

def Builder.WithConnectionConfig (b : Builder) (c : ConnectionConfig) : Builder :=
  b ++ [BuilderCall.WithConnectionConfig c]
def Builder.WithConfig (b : Builder) (cfg : IConfig) : Builder :=
  b ++ [BuilderCall.WithConfig cfg]
def Builder.WithAuthURL (b : Builder) (s : String) : Builder :=
  b ++ [BuilderCall.WithAuthURL s]
def Builder.WithMASAuthURL (b : Builder) (s : String) : Builder :=
  b ++ [BuilderCall.WithMASAuthURL s]
def Builder.WithRefreshToken (b : Builder) (s : String) : Builder :=
  b ++ [BuilderCall.WithRefreshToken s]
def Builder.WithClientID (b : Builder) (s : String) : Builder :=
  b ++ [BuilderCall.WithClientID s]
def Builder.WithURL (b : Builder) (s : String) : Builder :=
  b ++ [BuilderCall.WithURL s]

/-- A built connection, identified by a tag. -/
structure Connection where
  id : Nat
deriving DecidableEq, Repr

/-- The results of the external calls `providerConfigure` makes. -/
structure World where
  /-- Result of `cfg.Location()`. -/
  Location : Except GoError String
  /-- Error returned by `os.Stat(loc)`. -/
  Stat : String → error
  /-- Error returned by `cfg.Save(c)`. -/
  Save : Config → error
  /-- Result of `Build()` on a builder. -/
  Build : Builder → Except GoError Connection
  /-- Error returned by `c.RefreshTokens(ctx)`. -/
  RefreshTokens : Connection → Context → error

/-- An external call performed by `providerConfigure`. -/
inductive Call where
  | Location
  | Stat (loc : String)
  | Save (c : Config)
  | Build (b : Builder)
  | RefreshTokens (c : Connection) (ctx : Context)
deriving DecidableEq, Repr

/-- What `providerConfigure` returns (`client = none` is Go's `nil`), together
with the calls it made, oldest first. -/
structure Outcome where
  client : Option Connection
  diags : Diagnostics
  calls : List Call
deriving DecidableEq, Repr

/-! ## `providerConfigure` (lines 67-118) -/

/-- Lines 88-117 of `providerConfigure`: build the connection, refresh the
tokens, collect the diagnostics.  `calls` is the log of the calls made before
line 88. -/
def connectAndRefresh (w : World) (ctx : Context) (d : ResourceData) (cfg : IConfig)
    (diags : Diagnostics) (calls : List Call) : Outcome :=
  let b := ((((((NewBuilder.WithConnectionConfig
      { RequireAuth := true, RequireMASAuth := false }).WithConfig cfg).WithAuthURL
      (d "auth_url")).WithMASAuthURL DefaultMasAuthURL).WithRefreshToken
      (d "offline_token")).WithClientID (d "client_id")).WithURL (d "api_url")
  let calls := calls ++ [Call.Build b]
  match w.Build b with
  | Except.error err => { client := none, diags := FromErr (some err), calls := calls }
  | Except.ok c =>
    let err := w.RefreshTokens c ctx
    let calls := calls ++ [Call.RefreshTokens c ctx]
    let diags := diags ++ [{ Severity := Severity.Warning, Summary := "got refresh token",
                             Detail := "" }]
    let diags := if err ≠ none then diags ++ FromErr err else diags
    { client := some c, diags := diags, calls := calls }

/-- The configure callback `providerConfigure(ctx, d)`. -/
def providerConfigure (w : World) (ctx : Context) (d : ResourceData) : Outcome :=
  let diags : Diagnostics := []
  let cfg := NewFile
  let calls := [Call.Location]
  match w.Location with
  | Except.error err => { client := none, diags := FromErr (some err), calls := calls }
  | Except.ok loc =>
    let err2 := w.Stat loc
    let calls := calls ++ [Call.Stat loc]
    if IsNotExist err2 then
      let err1 := w.Save Config.empty
      let calls := calls ++ [Call.Save Config.empty]
      if err1 ≠ none then
        { client := none, diags := FromErr err1, calls := calls }
      else
        connectAndRefresh w ctx d cfg diags calls
    else if err2 ≠ none then
      { client := none, diags := FromErr err2, calls := calls }
    else
      connectAndRefresh w ctx d cfg diags calls

/-! ## `Provider()` (lines 25-65) -/

/-- The type `schema.Provider` (the fields this file sets).  Go map literals are kept as
association lists in source order. -/
structure ProviderSchema where
  Schema : List (String × Schema)
  ResourcesMap : List (String × ResourceCtor)
  DataSourcesMap : List (String × ResourceCtor)
  ConfigureContextFunc : World → Context → ResourceData → Outcome

/-- The provider returned by `Provider()`. -/
def Provider : ProviderSchema :=
  { Schema := [
      ("offline_token",
        { Type_ := ValueType.TypeString
          Optional := true
          DefaultFunc := EnvDefaultFunc "OFFLINE_TOKEN" none
          Description := "The offline token is a refresh token with no expiry and can be used by non-interactive processes to provide an access token for Red Hat OpenShift Application Services. The offline token can be obtained from [https://cloud.redhat.com/openshift/token](https://cloud.redhat.com/openshift/token). As the offline token is a sensitive value that varies between environments it is best specified using the `OFFLINE_TOKEN` environment variable." }),
      ("auth_url",
        { Type_ := ValueType.TypeString
          Optional := true
          DefaultFunc := EnvDefaultFunc "AUTH_URL" (some DefaultAuthURL)
          Description := "The auth url is used to get an access token for the service by passing the offline token. By default production is used (" ++ DefaultAuthURL ++ ")." }),
      ("client_id",
        { Type_ := ValueType.TypeString
          Optional := true
          DefaultFunc := EnvDefaultFunc "CLIENT_ID" (some DefaultClientID)
          Description := "The client id is used to when getting the access token using the offline token. By default " ++ DefaultClientID ++ " is used." }),
      ("api_url",
        { Type_ := ValueType.TypeString
          Optional := true
          DefaultFunc := EnvDefaultFunc "API_URL" (some DefaultAPIURL)
          Description := "URL to the RHOAS services API. By default using production API (" ++ DefaultAPIURL ++ ")." })
    ]
    ResourcesMap := [
      ("rhoas_kafka", ResourceCtor.kafkas_ResourceKafka),
      ("rhoas_service_account", ResourceCtor.serviceaccounts_ResourceServiceAccount)
    ]
    DataSourcesMap := [
      ("rhoas_cloud_providers", ResourceCtor.cloudproviders_DataSourceCloudProviders),
      ("rhoas_cloud_provider_regions", ResourceCtor.cloudproviders_DataSourceCloudProviderRegions),
      ("rhoas_kafkas", ResourceCtor.kafkas_DataSourceKafkas),
      ("rhoas_service_accounts", ResourceCtor.serviceaccounts_DataSourceServiceAccounts)
    ]
    ConfigureContextFunc := providerConfigure }

/-- The default value the schema of `Provider()` gives argument `name` under
environment `env`: `none` when there is no such argument, `some none` when its
default function returns nil. -/
def schemaDefault (env : Environ) (name : String) : Option (Option String) :=
  (Provider.Schema.lookup name).map (fun s => s.DefaultFunc env)

/-- The keys of an association list, in order. -/
def keys {α : Type} (m : List (String × α)) : List String := m.map Prod.fst

/-- Whether `k` starts with `p`, character by character. -/
def startsWith (p k : String) : Bool := p.data.isPrefixOf k.data

/-- Whether a logged call is a `cfg.Save`. -/
def Call.isSave : Call → Bool
  | Call.Save _ => true
  | _ => false

/-- Whether a logged call is a `RefreshTokens`. -/
def Call.isRefreshTokens : Call → Bool
  | Call.RefreshTokens _ _ => true
  | _ => false

/-- Whether a diagnostic has Error severity. -/
def Diagnostic.isError (x : Diagnostic) : Bool := x.Severity == Severity.Error

/-- The warning appended at lines 108-111. -/
def gotRefreshToken : Diagnostic :=
  { Severity := Severity.Warning, Summary := "got refresh token", Detail := "" }

/-! ## The config file -/

/-- Content of the config file at `cfg.Location()`; `none` when the file does
not exist. -/
abbrev FileState := Option Config

/-- What the calls that are given the config do to the config file: `cfg.Save`,
and `Build()` and `RefreshTokens`, which hold the handle passed to the builder
by `WithConfig(cfg)` at line 94.  Their bodies are outside this file, so their
effect on the file is left open. -/
structure Effects where
  /-- Effect of `cfg.Save(c)`. -/
  Save : Config → FileState → FileState
  /-- Effect of `Build()` on a builder. -/
  Build : Builder → FileState → FileState
  /-- Effect of `c.RefreshTokens(ctx)`. -/
  RefreshTokens : Connection → Context → FileState → FileState

/-- Effect of one logged call on the config file.  `cfg.Location()` only
computes a path and `os.Stat` only reads, so they leave the file as it is. -/
def Call.effect (fx : Effects) : Call → FileState → FileState
  | Call.Location, s => s
  | Call.Stat _, s => s
  | Call.Save c, s => fx.Save c s
  | Call.Build b, s => fx.Build b s
  | Call.RefreshTokens c ctx, s => fx.RefreshTokens c ctx s

/-- The config file after the logged calls ran, oldest first, on file `s`.
`providerConfigure` touches the file through these calls only. -/
def fileAfter (fx : Effects) (calls : List Call) (s : FileState) : FileState :=
  calls.foldl (fun t c => c.effect fx t) s

/-- Whether a logged call is made on the connection builder or the connection
(`Build()` or `RefreshTokens`). -/
def Call.isConnection : Call → Bool
  | Call.Build _ => true
  | Call.RefreshTokens _ _ => true
  | _ => false

/-- The calls of a run made before the first call on the connection builder. -/
def beforeBuild (calls : List Call) : List Call :=
  calls.takeWhile (fun c => !c.isConnection)

/-! ## Sample inputs -/

/-- A resource data whose four arguments hold four different values. -/
def sampleData : ResourceData := fun k =>
  if k = "auth_url" then "https://sso.example/auth"
  else if k = "offline_token" then "tok-123"
  else if k = "client_id" then "my-client"
  else if k = "api_url" then "https://api.example"
  else ""

/-- A world in which the config file exists, the connection builds, and the
token refresh fails. -/
def refreshFails : World :=
  { Location := Except.ok "/home/u/.config/rhoas/config.json"
    Stat := fun _ => none
    Save := fun _ => none
    Build := fun _ => Except.ok { id := 1 }
    RefreshTokens := fun _ _ => some { msg := "invalid_grant", notExist := false } }

/-- A world in which the config file exists and every call succeeds. -/
def allSucceed : World :=
  { Location := Except.ok "/home/u/.config/rhoas/config.json"
    Stat := fun _ => none
    Save := fun _ => none
    Build := fun _ => Except.ok { id := 1 }
    RefreshTokens := fun _ _ => none }

/-- A world in which the config file does not exist yet and every other call
succeeds. -/
def freshInstall : World :=
  { Location := Except.ok "/home/u/.config/rhoas/config.json"
    Stat := fun _ => some { msg := "no such file or directory", notExist := true }
    Save := fun _ => none
    Build := fun _ => Except.ok { id := 1 }
    RefreshTokens := fun _ _ => none }

/-- A world in which `cfg.Location()` fails. -/
def locationFails : World :=
  { allSucceed with Location := Except.error { msg := "no home directory", notExist := false } }

/-- A world in which `os.Stat` fails with an error other than not-exist. -/
def statFails : World :=
  { allSucceed with Stat := fun _ => some { msg := "permission denied", notExist := false } }

/-- A world in which the config file does not exist and saving it fails. -/
def saveFails : World :=
  { freshInstall with Save := fun _ => some { msg := "read-only file system", notExist := false } }

/-- A world in which the connection builder fails. -/
def buildFails : World :=
  { allSucceed with Build := fun _ => Except.error { msg := "missing refresh token", notExist := false } }

/-- An existing config file holding an access token. -/
def oldConfig : Config := { fields := [("access_token", "old-token")] }

/-- Effects in which `Save` writes its argument and the connection never
writes the config file. -/
def connectionReadsOnly : Effects :=
  { Save := fun c _ => some c
    Build := fun _ s => s
    RefreshTokens := fun _ _ s => s }

/-- Effects in which `Save` writes its argument and `RefreshTokens` stores the
refreshed access token in the config file it was given. -/
def refreshPersistsToken : Effects :=
  { Save := fun c _ => some c
    Build := fun _ s => s
    RefreshTokens := fun _ _ _ => some { fields := [("access_token", "new-token")] } }

/-! ## Theorems -/

/-- C1: with AUTH_URL, CLIENT_ID, API_URL and OFFLINE_TOKEN all unset or empty,
the defaults of auth_url, client_id and api_url are the three built-in
constants (with their literal values) and offline_token has the nil default. -/
theorem C1_defaults_without_env (env : Environ)
    (hA : env "AUTH_URL" = "") (hC : env "CLIENT_ID" = "")
    (hU : env "API_URL" = "") (hT : env "OFFLINE_TOKEN" = "") :
    schemaDefault env "auth_url" = some (some DefaultAuthURL) ∧
    DefaultAuthURL = "https://sso.redhat.com/auth/realms/redhat-external" ∧
    schemaDefault env "client_id" = some (some DefaultClientID) ∧
    DefaultClientID = "cloud-services" ∧
    schemaDefault env "api_url" = some (some DefaultAPIURL) ∧
    DefaultAPIURL = "https://api.openshift.com" ∧
    schemaDefault env "offline_token" = some none := by
  simp [schemaDefault, Provider, List.lookup, EnvDefaultFunc, hA, hC, hU, hT,
    DefaultAuthURL, DefaultClientID, DefaultAPIURL]

/-- C1 at the environment in which every variable is unset. -/
theorem C1_defaults_without_env_witness :
    schemaDefault (fun _ => "") "auth_url" = some (some DefaultAuthURL) ∧
    DefaultAuthURL = "https://sso.redhat.com/auth/realms/redhat-external" ∧
    schemaDefault (fun _ => "") "client_id" = some (some DefaultClientID) ∧
    DefaultClientID = "cloud-services" ∧
    schemaDefault (fun _ => "") "api_url" = some (some DefaultAPIURL) ∧
    DefaultAPIURL = "https://api.openshift.com" ∧
    schemaDefault (fun _ => "") "offline_token" = some none :=
  C1_defaults_without_env (fun _ => "") rfl rfl rfl rfl

/-! ### Shape of a run -/

/-- The builder handed to `Build()` at lines 88-100. -/
theorem connectAndRefresh_calls (w : World) (ctx : Context) (d : ResourceData) (cfg : IConfig)
    (diags : Diagnostics) (calls : List Call) :
    ∃ b, b = [BuilderCall.WithConnectionConfig { RequireAuth := true, RequireMASAuth := false },
        BuilderCall.WithConfig cfg, BuilderCall.WithAuthURL (d "auth_url"),
        BuilderCall.WithMASAuthURL DefaultMasAuthURL,
        BuilderCall.WithRefreshToken (d "offline_token"),
        BuilderCall.WithClientID (d "client_id"), BuilderCall.WithURL (d "api_url")] ∧
      ((∃ e, w.Build b = Except.error e ∧
          connectAndRefresh w ctx d cfg diags calls =
            { client := none, diags := FromErr (some e), calls := calls ++ [Call.Build b] }) ∨
       (∃ c, w.Build b = Except.ok c ∧
          connectAndRefresh w ctx d cfg diags calls =
            { client := some c,
              diags := diags ++ [gotRefreshToken] ++ FromErr (w.RefreshTokens c ctx),
              calls := calls ++ [Call.Build b, Call.RefreshTokens c ctx] })) := by
  refine ⟨_, rfl, ?_⟩
  cases hb : w.Build [BuilderCall.WithConnectionConfig { RequireAuth := true, RequireMASAuth := false },
        BuilderCall.WithConfig cfg, BuilderCall.WithAuthURL (d "auth_url"),
        BuilderCall.WithMASAuthURL DefaultMasAuthURL,
        BuilderCall.WithRefreshToken (d "offline_token"),
        BuilderCall.WithClientID (d "client_id"), BuilderCall.WithURL (d "api_url")] with
  | error e =>
    left
    refine ⟨e, rfl, ?_⟩
    simp [connectAndRefresh, NewBuilder, Builder.WithConnectionConfig, Builder.WithConfig,
      Builder.WithAuthURL, Builder.WithMASAuthURL, Builder.WithRefreshToken,
      Builder.WithClientID, Builder.WithURL, hb]
  | ok c =>
    right
    refine ⟨c, rfl, ?_⟩
    cases hr : w.RefreshTokens c ctx <;>
    simp [connectAndRefresh, NewBuilder, Builder.WithConnectionConfig, Builder.WithConfig,
      Builder.WithAuthURL, Builder.WithMASAuthURL, Builder.WithRefreshToken,
      Builder.WithClientID, Builder.WithURL, hb, hr, FromErr, gotRefreshToken]

/-- Every run of `providerConfigure` takes one of five paths. -/
theorem providerConfigure_cases (w : World) (ctx : Context) (d : ResourceData) :
    (∃ e, w.Location = Except.error e ∧
      providerConfigure w ctx d =
        { client := none, diags := FromErr (some e), calls := [Call.Location] }) ∨
    (∃ loc e, w.Location = Except.ok loc ∧ w.Stat loc = some e ∧ e.notExist = false ∧
      providerConfigure w ctx d =
        { client := none, diags := FromErr (some e), calls := [Call.Location, Call.Stat loc] }) ∨
    (∃ loc e, w.Location = Except.ok loc ∧ IsNotExist (w.Stat loc) = true ∧
      w.Save Config.empty = some e ∧
      providerConfigure w ctx d =
        { client := none, diags := FromErr (some e),
          calls := [Call.Location, Call.Stat loc, Call.Save Config.empty] }) ∨
    (∃ loc, w.Location = Except.ok loc ∧ IsNotExist (w.Stat loc) = true ∧
      w.Save Config.empty = none ∧
      providerConfigure w ctx d =
        connectAndRefresh w ctx d NewFile []
          [Call.Location, Call.Stat loc, Call.Save Config.empty]) ∨
    (∃ loc, w.Location = Except.ok loc ∧ w.Stat loc = none ∧
      providerConfigure w ctx d =
        connectAndRefresh w ctx d NewFile [] [Call.Location, Call.Stat loc]) := by
  cases hl : w.Location with
  | error e => left; exact ⟨e, rfl, by simp [providerConfigure, hl]⟩
  | ok loc =>
    right
    cases hs : w.Stat loc with
    | none =>
      right; right; right
      refine ⟨loc, rfl, ?_, ?_⟩ <;> simp [providerConfigure, hl, hs, IsNotExist]
    | some e =>
      cases hn : e.notExist with
      | false =>
        left
        refine ⟨loc, e, rfl, ?_, hn, ?_⟩ <;> simp [providerConfigure, hl, hs, IsNotExist, hn]
      | true =>
        right
        cases hv : w.Save Config.empty with
        | none =>
          right; left
          refine ⟨loc, rfl, ?_, ?_, ?_⟩ <;> simp [providerConfigure, hl, hs, IsNotExist, hn, hv]
        | some e1 =>
          left
          refine ⟨loc, e1, rfl, ?_, ?_, ?_⟩ <;>
            simp [providerConfigure, hl, hs, IsNotExist, hn, hv, FromErr]

/-! ### The schema -/

/-- C2: for every non-empty `v`, an argument whose environment variable holds
`v` has default `v`, whatever the other variables hold; and the function built
by `EnvDefaultFunc` returns `v` whatever built-in default it was given. -/
theorem C2_env_overrides_default (env : Environ) (v : String) (hv : v ≠ "") :
    (env "OFFLINE_TOKEN" = v → schemaDefault env "offline_token" = some (some v)) ∧
    (env "AUTH_URL" = v → schemaDefault env "auth_url" = some (some v)) ∧
    (env "CLIENT_ID" = v → schemaDefault env "client_id" = some (some v)) ∧
    (env "API_URL" = v → schemaDefault env "api_url" = some (some v)) ∧
    (∀ k dv, env k = v → EnvDefaultFunc k dv env = some v) := by
  refine ⟨?_, ?_, ?_, ?_, ?_⟩
  · intro h
    simp [schemaDefault, Provider, List.lookup, EnvDefaultFunc, h, hv]
  · intro h
    simp [schemaDefault, Provider, List.lookup, EnvDefaultFunc, h, hv]
  · intro h
    simp [schemaDefault, Provider, List.lookup, EnvDefaultFunc, h, hv]
  · intro h
    simp [schemaDefault, Provider, List.lookup, EnvDefaultFunc, h, hv]
  · intro k dv h
    simp [EnvDefaultFunc, h, hv]

/-- C2 at the environment in which every variable holds "v1". -/
theorem C2_env_overrides_default_witness :
    ("v1" : String) ≠ "" ∧
    schemaDefault (fun _ => "v1") "offline_token" = some (some "v1") ∧
    schemaDefault (fun _ => "v1") "auth_url" = some (some "v1") ∧
    schemaDefault (fun _ => "v1") "client_id" = some (some "v1") ∧
    schemaDefault (fun _ => "v1") "api_url" = some (some "v1") ∧
    EnvDefaultFunc "AUTH_URL" (some DefaultAuthURL) (fun _ => "v1") = some "v1" :=
  ⟨by decide,
   (C2_env_overrides_default (fun _ => "v1") "v1" (by decide)).1 rfl,
   (C2_env_overrides_default (fun _ => "v1") "v1" (by decide)).2.1 rfl,
   (C2_env_overrides_default (fun _ => "v1") "v1" (by decide)).2.2.1 rfl,
   (C2_env_overrides_default (fun _ => "v1") "v1" (by decide)).2.2.2.1 rfl,
   (C2_env_overrides_default (fun _ => "v1") "v1" (by decide)).2.2.2.2 _ _ rfl⟩

/-- C4: `Provider()` registers exactly the two resources "rhoas_kafka" and
"rhoas_service_account" and exactly the four data sources
"rhoas_cloud_providers", "rhoas_cloud_provider_regions", "rhoas_kafkas" and
"rhoas_service_accounts", each bound to its constructor; every key starts with
"rhoas_", no key is in both maps, and the configure callback is
`providerConfigure`. -/
theorem C4_registered_resources :
    Provider.ResourcesMap =
      [("rhoas_kafka", ResourceCtor.kafkas_ResourceKafka),
       ("rhoas_service_account", ResourceCtor.serviceaccounts_ResourceServiceAccount)] ∧
    Provider.DataSourcesMap =
      [("rhoas_cloud_providers", ResourceCtor.cloudproviders_DataSourceCloudProviders),
       ("rhoas_cloud_provider_regions",
         ResourceCtor.cloudproviders_DataSourceCloudProviderRegions),
       ("rhoas_kafkas", ResourceCtor.kafkas_DataSourceKafkas),
       ("rhoas_service_accounts", ResourceCtor.serviceaccounts_DataSourceServiceAccounts)] ∧
    (keys Provider.ResourcesMap).length = 2 ∧ (keys Provider.ResourcesMap).Nodup ∧
    (keys Provider.DataSourcesMap).length = 4 ∧ (keys Provider.DataSourcesMap).Nodup ∧
    (keys Provider.ResourcesMap ++ keys Provider.DataSourcesMap).all (startsWith "rhoas_")
      = true ∧
    (keys Provider.ResourcesMap).all (fun k => !(keys Provider.DataSourcesMap).contains k)
      = true ∧
    Provider.ConfigureContextFunc = providerConfigure := by
  refine ⟨rfl, rfl, rfl, ?_, rfl, ?_, ?_, ?_, rfl⟩
  · decide
  · decide
  · decide
  · decide

/-! ### The configure callback -/

/-- A run that reaches `Build()` made only `Location`, `Stat` and possibly
`Save` calls before it, handed `Build()` the builder of lines 88-100, and then
either stopped on the build error or went on to refresh the tokens. -/
theorem reaches_build (w : World) (ctx : Context) (d : ResourceData) (b : Builder)
    (h : Call.Build b ∈ (providerConfigure w ctx d).calls) :
    b = [BuilderCall.WithConnectionConfig { RequireAuth := true, RequireMASAuth := false },
        BuilderCall.WithConfig NewFile, BuilderCall.WithAuthURL (d "auth_url"),
        BuilderCall.WithMASAuthURL DefaultMasAuthURL,
        BuilderCall.WithRefreshToken (d "offline_token"),
        BuilderCall.WithClientID (d "client_id"), BuilderCall.WithURL (d "api_url")] ∧
    ∃ loc, w.Location = Except.ok loc ∧
    ∃ pre, (pre = [Call.Location, Call.Stat loc] ∨
            pre = [Call.Location, Call.Stat loc, Call.Save Config.empty]) ∧
      ((∃ e, w.Build b = Except.error e ∧
          providerConfigure w ctx d =
            { client := none, diags := FromErr (some e), calls := pre ++ [Call.Build b] }) ∨
       (∃ c, w.Build b = Except.ok c ∧
          providerConfigure w ctx d =
            { client := some c,
              diags := [gotRefreshToken] ++ FromErr (w.RefreshTokens c ctx),
              calls := pre ++ [Call.Build b, Call.RefreshTokens c ctx] })) := by
  rcases providerConfigure_cases w ctx d with
    ⟨e, _, heq⟩ | ⟨loc, e, _, _, _, heq⟩ | ⟨loc, e, _, _, _, heq⟩ |
    ⟨loc, hl, _, _, heq⟩ | ⟨loc, hl, _, heq⟩
  · rw [heq] at h; simp at h
  · rw [heq] at h; simp at h
  · rw [heq] at h; simp at h
  · obtain ⟨b1, hb1, hcase⟩ := connectAndRefresh_calls w ctx d NewFile []
      [Call.Location, Call.Stat loc, Call.Save Config.empty]
    have hb : b = b1 := by
      rcases hcase with ⟨e, _, h2⟩ | ⟨c, _, h2⟩ <;>
        · rw [heq, h2] at h; simpa using h
    subst hb
    refine ⟨hb1, loc, hl, _, Or.inr rfl, ?_⟩
    rcases hcase with ⟨e, he, h2⟩ | ⟨c, hc, h2⟩
    · exact Or.inl ⟨e, he, by rw [heq, h2]⟩
    · exact Or.inr ⟨c, hc, by rw [heq, h2]; simp⟩
  · obtain ⟨b1, hb1, hcase⟩ := connectAndRefresh_calls w ctx d NewFile []
      [Call.Location, Call.Stat loc]
    have hb : b = b1 := by
      rcases hcase with ⟨e, _, h2⟩ | ⟨c, _, h2⟩ <;>
        · rw [heq, h2] at h; simpa using h
    subst hb
    refine ⟨hb1, loc, hl, _, Or.inl rfl, ?_⟩
    rcases hcase with ⟨e, he, h2⟩ | ⟨c, hc, h2⟩
    · exact Or.inl ⟨e, he, by rw [heq, h2]⟩
    · exact Or.inr ⟨c, hc, by rw [heq, h2]; simp⟩

/-- C6: whenever `providerConfigure` calls `Build()`, the builder it calls it
on has received, in this order, the connection config RequireAuth = true,
RequireMASAuth = false, the config handle, auth_url through WithAuthURL, the
constant DefaultMasAuthURL through WithMASAuthURL, offline_token through
WithRefreshToken, client_id through WithClientID and api_url through
WithURL. -/
theorem C6_builder_wiring (w : World) (ctx : Context) (d : ResourceData) (b : Builder)
    (h : Call.Build b ∈ (providerConfigure w ctx d).calls) :
    b = [BuilderCall.WithConnectionConfig { RequireAuth := true, RequireMASAuth := false },
        BuilderCall.WithConfig NewFile,
        BuilderCall.WithAuthURL (d "auth_url"),
        BuilderCall.WithMASAuthURL
          "https://identity.api.openshift.com/auth/realms/rhoas-client-prod",
        BuilderCall.WithRefreshToken (d "offline_token"),
        BuilderCall.WithClientID (d "client_id"),
        BuilderCall.WithURL (d "api_url")] ∧
    DefaultMasAuthURL = "https://identity.api.openshift.com/auth/realms/rhoas-client-prod" :=
  ⟨(reaches_build w ctx d b h).1, rfl⟩

/-- C6 on a run where the four arguments hold four different values. -/
theorem C6_builder_wiring_witness :
    Call.Build
      [BuilderCall.WithConnectionConfig { RequireAuth := true, RequireMASAuth := false },
        BuilderCall.WithConfig NewFile,
        BuilderCall.WithAuthURL "https://sso.example/auth",
        BuilderCall.WithMASAuthURL
          "https://identity.api.openshift.com/auth/realms/rhoas-client-prod",
        BuilderCall.WithRefreshToken "tok-123",
        BuilderCall.WithClientID "my-client",
        BuilderCall.WithURL "https://api.example"]
      ∈ (providerConfigure allSucceed { id := 7 } sampleData).calls ∧
    ([BuilderCall.WithConnectionConfig { RequireAuth := true, RequireMASAuth := false },
        BuilderCall.WithConfig NewFile,
        BuilderCall.WithAuthURL "https://sso.example/auth",
        BuilderCall.WithMASAuthURL
          "https://identity.api.openshift.com/auth/realms/rhoas-client-prod",
        BuilderCall.WithRefreshToken "tok-123",
        BuilderCall.WithClientID "my-client",
        BuilderCall.WithURL "https://api.example"] : Builder) =
      [BuilderCall.WithConnectionConfig { RequireAuth := true, RequireMASAuth := false },
        BuilderCall.WithConfig NewFile,
        BuilderCall.WithAuthURL (sampleData "auth_url"),
        BuilderCall.WithMASAuthURL
          "https://identity.api.openshift.com/auth/realms/rhoas-client-prod",
        BuilderCall.WithRefreshToken (sampleData "offline_token"),
        BuilderCall.WithClientID (sampleData "client_id"),
        BuilderCall.WithURL (sampleData "api_url")] :=
  ⟨by decide, (C6_builder_wiring allSucceed { id := 7 } sampleData _ (by decide)).1⟩

/-- C5: when `Build()` is reached and returns a connection `c`, the run calls
`RefreshTokens` exactly once, on `c` with the caller's context, after the build
and as its last call; the diagnostics are exactly the warning "got refresh
token" when the refresh returns no error, and exactly that warning followed by
an Error diagnostic carrying the message of `e` when it returns the error
`e`. -/
theorem C5_refresh_outcome_reported (w : World) (ctx : Context) (d : ResourceData)
    (b : Builder) (c : Connection)
    (h : Call.Build b ∈ (providerConfigure w ctx d).calls)
    (hb : w.Build b = Except.ok c) :
    (providerConfigure w ctx d).calls.filter Call.isRefreshTokens
      = [Call.RefreshTokens c ctx] ∧
    (providerConfigure w ctx d).calls.getLast? = some (Call.RefreshTokens c ctx) ∧
    (w.RefreshTokens c ctx = none →
      (providerConfigure w ctx d).diags =
        [{ Severity := Severity.Warning, Summary := "got refresh token", Detail := "" }]) ∧
    (∀ e, w.RefreshTokens c ctx = some e →
      (providerConfigure w ctx d).diags =
        [{ Severity := Severity.Warning, Summary := "got refresh token", Detail := "" },
         { Severity := Severity.Error, Summary := e.msg, Detail := "" }]) := by
  obtain ⟨_, loc, _, pre, hpre, hcase⟩ := reaches_build w ctx d b h
  rcases hcase with ⟨e, he, _⟩ | ⟨c1, hc1, heq⟩
  · rw [hb] at he; cases he
  · rw [hb] at hc1
    cases hc1
    rw [heq]
    refine ⟨?_, ?_, ?_, ?_⟩
    · rcases hpre with rfl | rfl <;> simp [List.filter, Call.isRefreshTokens]
    · rcases hpre with rfl | rfl <;> simp
    · intro hr; simp [hr, FromErr, gotRefreshToken]
    · intro e hr; simp [hr, FromErr, gotRefreshToken]

/-- C5 on a run whose refresh fails with "invalid_grant". -/
theorem C5_refresh_outcome_reported_witness :
    (providerConfigure refreshFails { id := 7 } sampleData).calls.filter Call.isRefreshTokens
      = [Call.RefreshTokens { id := 1 } { id := 7 }] ∧
    (providerConfigure refreshFails { id := 7 } sampleData).diags =
      [{ Severity := Severity.Warning, Summary := "got refresh token", Detail := "" },
       { Severity := Severity.Error, Summary := "invalid_grant", Detail := "" }] :=
  ⟨(C5_refresh_outcome_reported refreshFails { id := 7 } sampleData
      [BuilderCall.WithConnectionConfig { RequireAuth := true, RequireMASAuth := false },
        BuilderCall.WithConfig NewFile,
        BuilderCall.WithAuthURL "https://sso.example/auth",
        BuilderCall.WithMASAuthURL DefaultMasAuthURL,
        BuilderCall.WithRefreshToken "tok-123",
        BuilderCall.WithClientID "my-client",
        BuilderCall.WithURL "https://api.example"]
      { id := 1 } (by decide) rfl).1,
   (C5_refresh_outcome_reported refreshFails { id := 7 } sampleData
      [BuilderCall.WithConnectionConfig { RequireAuth := true, RequireMASAuth := false },
        BuilderCall.WithConfig NewFile,
        BuilderCall.WithAuthURL "https://sso.example/auth",
        BuilderCall.WithMASAuthURL DefaultMasAuthURL,
        BuilderCall.WithRefreshToken "tok-123",
        BuilderCall.WithClientID "my-client",
        BuilderCall.WithURL "https://api.example"]
      { id := 1 } (by decide) rfl).2.2.2 { msg := "invalid_grant", notExist := false } rfl⟩

/-- C8: a setup error ends the run at once.  If `cfg.Location()` fails, or
`os.Stat` fails with an error other than not-exist, or saving the empty config
fails, or `Build()` fails, the client is nil, the diagnostics are exactly one
Error diagnostic carrying that error message (so no warning), the failing call
is the last call of the run, and `RefreshTokens` is not called. -/
theorem C8_setup_errors_stop_the_run (w : World) (ctx : Context) (d : ResourceData) :
    (∀ e, w.Location = Except.error e →
      providerConfigure w ctx d =
        { client := none
          diags := [{ Severity := Severity.Error, Summary := e.msg, Detail := "" }]
          calls := [Call.Location] }) ∧
    (∀ loc e, w.Location = Except.ok loc → w.Stat loc = some e → e.notExist = false →
      providerConfigure w ctx d =
        { client := none
          diags := [{ Severity := Severity.Error, Summary := e.msg, Detail := "" }]
          calls := [Call.Location, Call.Stat loc] }) ∧
    (∀ loc e, w.Location = Except.ok loc → IsNotExist (w.Stat loc) = true →
      w.Save Config.empty = some e →
      providerConfigure w ctx d =
        { client := none
          diags := [{ Severity := Severity.Error, Summary := e.msg, Detail := "" }]
          calls := [Call.Location, Call.Stat loc, Call.Save Config.empty] }) ∧
    (∀ b e, Call.Build b ∈ (providerConfigure w ctx d).calls → w.Build b = Except.error e →
      (providerConfigure w ctx d).client = none ∧
      (providerConfigure w ctx d).diags =
        [{ Severity := Severity.Error, Summary := e.msg, Detail := "" }] ∧
      (providerConfigure w ctx d).calls.getLast? = some (Call.Build b) ∧
      (providerConfigure w ctx d).calls.filter Call.isRefreshTokens = []) := by
  refine ⟨?_, ?_, ?_, ?_⟩
  · intro e hl
    simp [providerConfigure, hl, FromErr]
  · intro loc e hl hs hn
    simp [providerConfigure, hl, hs, hn, IsNotExist, FromErr]
  · intro loc e hl hs hv
    simp [providerConfigure, hl, hs, hv, FromErr]
  · intro b e h hb
    obtain ⟨_, loc, _, pre, hpre, hcase⟩ := reaches_build w ctx d b h
    rcases hcase with ⟨e1, he1, heq⟩ | ⟨c, hc, _⟩
    · rw [hb] at he1
      cases he1
      rw [heq]
      rcases hpre with rfl | rfl <;> simp [FromErr, List.filter, Call.isRefreshTokens]
    · rw [hb] at hc; cases hc

/-- C8 on four runs, one for each failing setup step. -/
theorem C8_setup_errors_stop_the_run_witness :
    providerConfigure locationFails { id := 7 } sampleData =
      { client := none
        diags := [{ Severity := Severity.Error, Summary := "no home directory", Detail := "" }]
        calls := [Call.Location] } ∧
    providerConfigure statFails { id := 7 } sampleData =
      { client := none
        diags := [{ Severity := Severity.Error, Summary := "permission denied", Detail := "" }]
        calls := [Call.Location, Call.Stat "/home/u/.config/rhoas/config.json"] } ∧
    providerConfigure saveFails { id := 7 } sampleData =
      { client := none
        diags := [{ Severity := Severity.Error, Summary := "read-only file system",
                    Detail := "" }]
        calls := [Call.Location, Call.Stat "/home/u/.config/rhoas/config.json",
                  Call.Save Config.empty] } ∧
    ((providerConfigure buildFails { id := 7 } sampleData).client = none ∧
      (providerConfigure buildFails { id := 7 } sampleData).diags =
        [{ Severity := Severity.Error, Summary := "missing refresh token", Detail := "" }] ∧
      (providerConfigure buildFails { id := 7 } sampleData).calls.getLast? =
        some (Call.Build
          [BuilderCall.WithConnectionConfig { RequireAuth := true, RequireMASAuth := false },
            BuilderCall.WithConfig NewFile,
            BuilderCall.WithAuthURL "https://sso.example/auth",
            BuilderCall.WithMASAuthURL DefaultMasAuthURL,
            BuilderCall.WithRefreshToken "tok-123",
            BuilderCall.WithClientID "my-client",
            BuilderCall.WithURL "https://api.example"]) ∧
      (providerConfigure buildFails { id := 7 } sampleData).calls.filter Call.isRefreshTokens
        = []) :=
  ⟨(C8_setup_errors_stop_the_run locationFails { id := 7 } sampleData).1 _ rfl,
   (C8_setup_errors_stop_the_run statFails { id := 7 } sampleData).2.1 _ _ rfl rfl rfl,
   (C8_setup_errors_stop_the_run saveFails { id := 7 } sampleData).2.2.1 _ _ rfl rfl rfl,
   (C8_setup_errors_stop_the_run buildFails { id := 7 } sampleData).2.2.2 _ _
     (by decide) rfl⟩

/-- Lines 88-117 add no `Save` call to the log. -/
theorem connectAndRefresh_saves (w : World) (ctx : Context) (d : ResourceData) (cfg : IConfig)
    (diags : Diagnostics) (calls : List Call) :
    (connectAndRefresh w ctx d cfg diags calls).calls.filter Call.isSave
      = calls.filter Call.isSave := by
  obtain ⟨b, _, hcase⟩ := connectAndRefresh_calls w ctx d cfg diags calls
  rcases hcase with ⟨e, _, heq⟩ | ⟨c, _, heq⟩ <;>
    simp [heq, List.filter_append, List.filter, Call.isSave]

/-- The `Save` calls of a run: one, with the empty config, when `os.Stat`
reports not-exist, and none otherwise. -/
theorem save_calls (w : World) (ctx : Context) (d : ResourceData) (loc : String)
    (hl : w.Location = Except.ok loc) :
    (providerConfigure w ctx d).calls.filter Call.isSave =
      (if IsNotExist (w.Stat loc) = true then [Call.Save { fields := [] }] else []) := by
  rcases providerConfigure_cases w ctx d with
    ⟨e, hl1, _⟩ | ⟨loc1, e, hl1, hs, hn, heq⟩ | ⟨loc1, e, hl1, hs, _, heq⟩ |
    ⟨loc1, hl1, hs, _, heq⟩ | ⟨loc1, hl1, hs, heq⟩
  · rw [hl] at hl1; cases hl1
  · rw [hl] at hl1; cases hl1
    simp [heq, hs, hn, IsNotExist, List.filter, Call.isSave]
  · rw [hl] at hl1; cases hl1
    simp [heq, hs, List.filter, Call.isSave, Config.empty]
  · rw [hl] at hl1; cases hl1
    rw [heq, connectAndRefresh_saves]
    simp [hs, List.filter, Call.isSave, Config.empty]
  · rw [hl] at hl1; cases hl1
    rw [heq, connectAndRefresh_saves]
    simp [hs, IsNotExist, List.filter, Call.isSave]

/-- The calls of a run whose config file exists: `Location`, `Stat`, `Build`,
and `RefreshTokens` when the build succeeded. -/
theorem calls_when_file_exists (w : World) (ctx : Context) (d : ResourceData) (loc : String)
    (hl : w.Location = Except.ok loc) (hs : w.Stat loc = none) :
    ∃ b, (providerConfigure w ctx d).calls = [Call.Location, Call.Stat loc, Call.Build b] ∨
      ∃ c, (providerConfigure w ctx d).calls =
        [Call.Location, Call.Stat loc, Call.Build b, Call.RefreshTokens c ctx] := by
  rcases providerConfigure_cases w ctx d with
    ⟨e, hl1, _⟩ | ⟨loc1, e, hl1, hs1, _, _⟩ | ⟨loc1, e, hl1, hs1, _, _⟩ |
    ⟨loc1, hl1, hs1, _, _⟩ | ⟨loc1, hl1, _, heq⟩
  · rw [hl] at hl1; cases hl1
  · rw [hl] at hl1; cases hl1
    rw [hs] at hs1; cases hs1
  · rw [hl] at hl1; cases hl1
    rw [hs] at hs1; simp [IsNotExist] at hs1
  · rw [hl] at hl1; cases hl1
    rw [hs] at hs1; simp [IsNotExist] at hs1
  · rw [hl] at hl1; cases hl1
    obtain ⟨b, _, hcase⟩ := connectAndRefresh_calls w ctx d NewFile []
      [Call.Location, Call.Stat loc]
    refine ⟨b, ?_⟩
    rcases hcase with ⟨e, _, h2⟩ | ⟨c, _, h2⟩
    · left; rw [heq, h2]; simp
    · right; exact ⟨c, by rw [heq, h2]; simp⟩

/-- C9 as amended: `providerConfigure` calls `cfg.Save` exactly once, with the
empty `config.Config{}`, when `os.Stat` of the config location reports
not-exist, and never otherwise.  When the file exists (stat returns no error)
no `Save` is called, the file is still as it was when `Build()` is called, and
after the run it is what `Build()` and `RefreshTokens` leave of it: unchanged
whenever these two do not write it, whatever `Save` would do.  When the
location cannot be determined no `Save` is called and the file is unchanged. -/
theorem C9_own_steps_save_only_when_missing (fx : Effects) (w : World) (ctx : Context)
    (d : ResourceData) (s : FileState) :
    (∀ loc, w.Location = Except.ok loc →
      (providerConfigure w ctx d).calls.filter Call.isSave =
        (if IsNotExist (w.Stat loc) = true then [Call.Save { fields := [] }] else []) ∧
      (Call.Save { fields := [] } ∈ (providerConfigure w ctx d).calls ↔
        IsNotExist (w.Stat loc) = true) ∧
      (w.Stat loc = none →
        (∀ c, Call.Save c ∉ (providerConfigure w ctx d).calls) ∧
        fileAfter fx (beforeBuild (providerConfigure w ctx d).calls) s = s ∧
        fileAfter fx (providerConfigure w ctx d).calls s =
          fileAfter fx ((providerConfigure w ctx d).calls.filter Call.isConnection) s ∧
        ((∀ b t, fx.Build b t = t) → (∀ c x t, fx.RefreshTokens c x t = t) →
          fileAfter fx (providerConfigure w ctx d).calls s = s))) ∧
    (∀ e, w.Location = Except.error e →
      (providerConfigure w ctx d).calls.filter Call.isSave = [] ∧
      fileAfter fx (providerConfigure w ctx d).calls s = s) := by
  have mem : ∀ c, Call.Save c ∈ (providerConfigure w ctx d).calls ↔
      Call.Save c ∈ (providerConfigure w ctx d).calls.filter Call.isSave := by
    intro c
    simp [List.mem_filter, Call.isSave]
  refine ⟨fun loc hl => ⟨save_calls w ctx d loc hl, ?_, ?_⟩, ?_⟩
  · rw [mem, save_calls w ctx d loc hl]
    by_cases hn : IsNotExist (w.Stat loc) = true <;> simp [hn]
  · intro hs
    refine ⟨?_, ?_, ?_, ?_⟩
    · intro c
      rw [mem, save_calls w ctx d loc hl]
      simp [hs, IsNotExist]
    · obtain ⟨b, hc | ⟨c, hc⟩⟩ := calls_when_file_exists w ctx d loc hl hs <;>
        simp [hc, beforeBuild, List.takeWhile, Call.isConnection, fileAfter, Call.effect]
    · obtain ⟨b, hc | ⟨c, hc⟩⟩ := calls_when_file_exists w ctx d loc hl hs <;>
        simp [hc, List.filter, Call.isConnection, fileAfter, Call.effect]
    · intro hB hR
      obtain ⟨b, hc | ⟨c, hc⟩⟩ := calls_when_file_exists w ctx d loc hl hs <;>
        simp [hc, fileAfter, Call.effect, hB, hR]
  · intro e hl
    simp [providerConfigure, hl, List.filter, Call.isSave, fileAfter, Call.effect]

/-- C9 as amended, on a run where the file is missing, on a run where it
exists and the connection does not write it, and on a run where the location
is unknown. -/
theorem C9_own_steps_save_only_when_missing_witness :
    (providerConfigure freshInstall { id := 7 } sampleData).calls.filter Call.isSave
      = [Call.Save { fields := [] }] ∧
    (providerConfigure allSucceed { id := 7 } sampleData).calls.filter Call.isSave = [] ∧
    fileAfter connectionReadsOnly
      (beforeBuild (providerConfigure allSucceed { id := 7 } sampleData).calls)
      (some oldConfig) = some oldConfig ∧
    fileAfter connectionReadsOnly (providerConfigure allSucceed { id := 7 } sampleData).calls
      (some oldConfig) = some oldConfig ∧
    fileAfter refreshPersistsToken
      (beforeBuild (providerConfigure allSucceed { id := 7 } sampleData).calls)
      (some oldConfig) = some oldConfig ∧
    fileAfter connectionReadsOnly (providerConfigure locationFails { id := 7 } sampleData).calls
      (some oldConfig) = some oldConfig :=
  ⟨((C9_own_steps_save_only_when_missing connectionReadsOnly freshInstall { id := 7 }
      sampleData none).1 _ rfl).1,
   ((C9_own_steps_save_only_when_missing connectionReadsOnly allSucceed { id := 7 }
      sampleData (some oldConfig)).1 _ rfl).1,
   (((C9_own_steps_save_only_when_missing connectionReadsOnly allSucceed { id := 7 }
      sampleData (some oldConfig)).1 _ rfl).2.2 rfl).2.1,
   (((C9_own_steps_save_only_when_missing connectionReadsOnly allSucceed { id := 7 }
      sampleData (some oldConfig)).1 _ rfl).2.2 rfl).2.2.2 (fun _ _ => rfl) (fun _ _ _ => rfl),
   (((C9_own_steps_save_only_when_missing refreshPersistsToken allSucceed { id := 7 }
      sampleData (some oldConfig)).1 _ rfl).2.2 rfl).2.1,
   ((C9_own_steps_save_only_when_missing connectionReadsOnly locationFails { id := 7 }
      sampleData (some oldConfig)).2 _ rfl).2⟩

/-- C9 as stated fails on a run where the config file exists and
`RefreshTokens`, run on the connection that was given the config, stores the
refreshed token: stat returns no error and no `Save` is called, yet the file
after the run differs from the file before it. -/
theorem C9_existing_config_changed_by_refresh :
    allSucceed.Location = Except.ok "/home/u/.config/rhoas/config.json" ∧
    allSucceed.Stat "/home/u/.config/rhoas/config.json" = none ∧
    (providerConfigure allSucceed { id := 7 } sampleData).calls.filter Call.isSave = [] ∧
    Call.RefreshTokens { id := 1 } { id := 7 }
      ∈ (providerConfigure allSucceed { id := 7 } sampleData).calls ∧
    fileAfter refreshPersistsToken (providerConfigure allSucceed { id := 7 } sampleData).calls
      (some oldConfig) = some { fields := [("access_token", "new-token")] } ∧
    fileAfter refreshPersistsToken (providerConfigure allSucceed { id := 7 } sampleData).calls
      (some oldConfig) ≠ some oldConfig ∧
    ¬ (∀ (fx : Effects) (w : World) (ctx : Context) (d : ResourceData) (s : FileState)
        (loc : String), w.Location = Except.ok loc → w.Stat loc = none →
        fileAfter fx (providerConfigure w ctx d).calls s = s) := by
  refine ⟨rfl, rfl, by decide, by decide, by decide, by decide, ?_⟩
  intro h
  have h1 := h refreshPersistsToken allSucceed { id := 7 } sampleData (some oldConfig)
    "/home/u/.config/rhoas/config.json" rfl rfl
  revert h1
  decide

/-! ### The refresh-error path -/

/-- C3 evaluated on a run whose token refresh fails: the callback returns the
built connection, not nil, although `RefreshTokens` returned an error and the
diagnostics end with an Error diagnostic. -/
theorem C3_client_returned_on_refresh_error :
    refreshFails.RefreshTokens { id := 1 } { id := 7 }
      = some { msg := "invalid_grant", notExist := false } ∧
    providerConfigure refreshFails { id := 7 } sampleData =
      { client := some { id := 1 }
        diags := [{ Severity := Severity.Warning, Summary := "got refresh token", Detail := "" },
                  { Severity := Severity.Error, Summary := "invalid_grant", Detail := "" }]
        calls := [Call.Location, Call.Stat "/home/u/.config/rhoas/config.json",
                  Call.Build
                    [BuilderCall.WithConnectionConfig
                        { RequireAuth := true, RequireMASAuth := false },
                      BuilderCall.WithConfig NewFile,
                      BuilderCall.WithAuthURL "https://sso.example/auth",
                      BuilderCall.WithMASAuthURL DefaultMasAuthURL,
                      BuilderCall.WithRefreshToken "tok-123",
                      BuilderCall.WithClientID "my-client",
                      BuilderCall.WithURL "https://api.example"],
                  Call.RefreshTokens { id := 1 } { id := 7 }] } ∧
    (providerConfigure refreshFails { id := 7 } sampleData).client ≠ none ∧
    (providerConfigure refreshFails { id := 7 } sampleData).diags.any Diagnostic.isError
      = true := by
  decide

/-- C7 evaluated on a run whose token refresh fails: `RefreshTokens` returned
an error, and the warning "got refresh token" is among the diagnostics all the
same. -/
theorem C7_warning_emitted_on_refresh_error :
    refreshFails.RefreshTokens { id := 1 } { id := 7 } ≠ none ∧
    Call.RefreshTokens { id := 1 } { id := 7 }
      ∈ (providerConfigure refreshFails { id := 7 } sampleData).calls ∧
    ({ Severity := Severity.Warning, Summary := "got refresh token", Detail := "" } : Diagnostic)
      ∈ (providerConfigure refreshFails { id := 7 } sampleData).diags := by
  decide

end rhoas
